import Mathlib

/-
Verification of the Titan runtime boundary-enforcement layer
(src/runtime/tcore.c, src/runtime/tcore.h).

The layer sits between statically typed generated code and a dynamically
tagged value host (Lua).  Its five checks are embedded here as pure Lean
functions: the C functions that raise a fatal diagnostic and never return
are modelled as functions producing the formatted diagnostic `String`,
and the two bounds checks, which either return normally or raise, are
modelled as functions into `Except String Table`, returning the table in
the state the check leaves it in (the C code mutates the table in place).

Host-owned operations that the layer calls but that live outside
src/runtime (table normalization, array-capacity resize, the host's
type-name table) are modelled from the spec's interface contracts; each
such definition carries a doc comment starting `Modelled from the spec:`.
-/

namespace Titan

/-- Modulus of the C type `unsigned int` (32 bits on the targeted
platforms).  `t->sizearray` has this type, and the doubled capacity
`2*asize` in `titan_runtime_array_out_of_bounds_write` is computed in it. -/
def UINT_MOD : Nat := 2 ^ 32

/-- A dynamic host value as this layer sees it: a raw type tag plus an
opaque payload.  The layer only ever inspects tags (`rawtt`) and forwards
values for diagnostic formatting, so the payload is left abstract as a
`Nat`. -/
structure TValue where
  tag : Nat
  payload : Nat
  deriving DecidableEq

/-- Modelled from the spec: the raw tag of a host value (`rawtt` macro of
the host). -/
def rawtt (v : TValue) : Nat := v.tag

/-- Modelled from the spec: host tag constant for the number kind
(Lua `LUA_TNUMBER`). -/
def LUA_TNUMBER : Nat := 3

/-- Modelled from the spec: host tag constant for the float numeric
subtag (Lua `LUA_TNUMFLT = LUA_TNUMBER | (0 << 4)`). -/
def LUA_TNUMFLT : Nat := LUA_TNUMBER

/-- Modelled from the spec: host tag constant for the integer numeric
subtag (Lua `LUA_TNUMINT = LUA_TNUMBER | (1 << 4)`). -/
def LUA_TNUMINT : Nat := LUA_TNUMBER + 16

/-- Modelled from the spec: strip the variant/subtype bits of a raw tag
(Lua `novariant`, which masks the low four bits back out). -/
def novariant (t : Nat) : Nat := t % 16

/-- Modelled from the spec: the host's generic type-name resolution
(outbound interface (d) of the spec), mapping a variant-stripped tag to
the host's canonical kind name (Lua `ttypename`). -/
def ttypename (t : Nat) : String :=
  match t with
  | 0 => "nil"
  | 1 => "boolean"
  | 2 => "userdata"
  | 3 => "number"
  | 4 => "string"
  | 5 => "table"
  | 6 => "function"
  | 7 => "userdata"
  | 8 => "thread"
  | _ => "no value"

/-- Embeds `titan_tag_name` (tcore.c): the Tag Namer.  Integer and float
numeric subtags get their own names; every other tag resolves through the
host's `ttypename` after `novariant`. -/
def titan_tag_name (raw_tag : Nat) : String :=
  if raw_tag = LUA_TNUMINT then "integer"
  else if raw_tag = LUA_TNUMFLT then "float"
  else ttypename (novariant raw_tag)

/-- Embeds `titan_runtime_arity_error` (tcore.c): the formatted
diagnostic the Arity Checker raises (the C function formats this message
through `luaL_error` and never returns). -/
def titan_runtime_arity_error (expected received : Int) : String :=
  "wrong number of arguments to function, expected " ++ toString expected ++
    " but received " ++ toString received

/-- Embeds `titan_runtime_argument_type_error` (tcore.c): the formatted
diagnostic raised when an argument's tag differs from the declared one. -/
def titan_runtime_argument_type_error (param_name : String) (line : Int)
    (expected_tag : Nat) (slot : TValue) : String :=
  "wrong type for argument " ++ param_name ++ " at line " ++ toString line ++
    ", expected " ++ titan_tag_name expected_tag ++ " but found " ++
    titan_tag_name (rawtt slot)

/-- Embeds `titan_runtime_array_bounds_error` (tcore.c): the formatted
"outside array part" bounds diagnostic. -/
def titan_runtime_array_bounds_error (line col : Int) : String :=
  "out of bounds (outside array part) at line " ++ toString line ++
    ", col " ++ toString col

/-- Embeds `titan_runtime_array_type_error` (tcore.c): an array slot
already fetched by generated code is either empty (`isempty(slot)`, here
`none`), in which case the "inside array part" bounds diagnostic is
raised, or present with the wrong tag, in which case the element-type
diagnostic is raised.  The C function always raises; it is the error
path of the Array Element Type Checker. -/
def titan_runtime_array_type_error (line : Int) (expected_tag : Nat)
    (slot : Option TValue) : String :=
  match slot with
  | none =>
      "out of bounds (inside array part) at line " ++ toString line
  | some v =>
      "wrong type for array element at line " ++ toString line ++
        ", expected " ++ titan_tag_name expected_tag ++ " but found " ++
        titan_tag_name (rawtt v)

/-- Embeds `titan_runtime_function_return_error` (tcore.c): the formatted
diagnostic raised when a function result's tag differs from the declared
one. -/
def titan_runtime_function_return_error (line : Int) (expected_tag : Nat)
    (slot : TValue) : String :=
  "wrong type for function result at line " ++ toString line ++
    ", expected " ++ titan_tag_name expected_tag ++ " but found " ++
    titan_tag_name (rawtt slot)

/-- A host table as this layer sees it: the contiguous array region
(slots indexed from 0; `none` is an empty slot, a hole) and the
integer-keyed portion of the hash region that normalization may fold
into the array region.  The C field `t->sizearray` is the length of the
array region. -/
structure Table where
  array : List (Option TValue)
  hash : List (Nat × TValue)
  deriving DecidableEq

/-- The C field `t->sizearray`: the physical capacity of the array
region, which is also the size the bounds checks compare against. -/
def Table.sizearray (t : Table) : Nat := t.array.length

/-- Number of committed (present, non-hole) slots of the array region:
the table's logical array content size. -/
def Table.committed (t : Table) : Nat :=
  t.array.countP (fun s => s.isSome)

/-- Fuelled worker for the modelled normalization: while the hash region
holds an entry at the next array index (`t.array.length`), fold it into
the array region.  The fuel (initially the hash-region length) strictly
bounds the number of foldable entries, so the fixpoint is reached. -/
def normalizeAux : Nat → Table → Table
  | 0, t => t
  | fuel + 1, t =>
      match t.hash.lookup t.array.length with
      | some v =>
          normalizeAux fuel
            { array := t.array ++ [some v],
              hash := t.hash.filter (fun p => p.1 != t.array.length) }
      | none => t

/-- Modelled from the spec: `luaH_titan_normalize_table`, the host-owned
normalization both bounds checks invoke first — any contiguous run of
integer keys sitting in the hash region is folded into the array region
so `sizearray` reflects the true logical array length.  Idempotent. -/
def luaH_titan_normalize_table (t : Table) : Table :=
  normalizeAux t.hash.length t

/-- Modelled from the spec: `luaH_resizearray`, the host-owned
grow-array-capacity operation (outbound interface (c)) — it takes a
target capacity, preserves the existing slots that fit in it, and fills
any newly uncovered slots with holes. -/
def luaH_resizearray (t : Table) (nasize : Nat) : Table :=
  { t with
    array := t.array.take nasize ++
      List.replicate (nasize - t.array.length) none }

/-- Embeds `titan_runtime_array_out_of_bounds_read` (tcore.c): normalize
the table, read `asize = t->sizearray`, and raise the "outside array
part" diagnostic when `ui >= asize`; otherwise return normally.  The
returned table is the table as the check leaves it. -/
def titan_runtime_array_out_of_bounds_read (t : Table) (ui : Nat)
    (line col : Int) : Except String Table :=
  let t1 := luaH_titan_normalize_table t
  let asize := t1.sizearray
  if ui ≥ asize then
    .error (titan_runtime_array_bounds_error line col)
  else
    .ok t1

/-- Embeds `titan_runtime_array_out_of_bounds_write` (tcore.c):
normalize the table, read `asize = t->sizearray`, raise when
`ui > asize`; when `ui == asize` request capacity
`asize == 0 ? 1 : 2*asize` (computed in `unsigned int`, hence the
modulus) from `luaH_resizearray`; otherwise return with the table
untouched beyond normalization. -/
def titan_runtime_array_out_of_bounds_write (t : Table) (ui : Nat)
    (line col : Int) : Except String Table :=
  let t1 := luaH_titan_normalize_table t
  let asize := t1.sizearray
  if ui > asize then
    .error (titan_runtime_array_bounds_error line col)
  else if ui = asize then
    .ok (luaH_resizearray t1 (if asize = 0 then 1 else (2 * asize) % UINT_MOD))
  else
    .ok t1

/-- The bounds decision of the read check on an already-normalized
table: the body of `titan_runtime_array_out_of_bounds_read` after the
normalization call. -/
def read_bounds_decision (t : Table) (ui : Nat) (line col : Int) :
    Except String Table :=
  if ui ≥ t.sizearray then
    .error (titan_runtime_array_bounds_error line col)
  else
    .ok t

/-- The bounds decision of the write check on an already-normalized
table: the body of `titan_runtime_array_out_of_bounds_write` after the
normalization call. -/
def write_bounds_decision (t : Table) (ui : Nat) (line col : Int) :
    Except String Table :=
  if ui > t.sizearray then
    .error (titan_runtime_array_bounds_error line col)
  else if ui = t.sizearray then
    .ok (luaH_resizearray t
      (if t.sizearray = 0 then 1 else (2 * t.sizearray) % UINT_MOD))
  else
    .ok t

/-- The capacity the write check requests from `luaH_resizearray`, as a
function of the post-normalization size and the index: `none` when no
resize call is made. -/
def write_request (asize ui : Nat) : Option Nat :=
  if ui = asize then
    some (if asize = 0 then 1 else (2 * asize) % UINT_MOD)
  else
    none

/-- Modelled from the spec: the actual slot store performed by generated
code after a successful write-bounds check — commit value `v` at index
`i` of the array region (out-of-capacity indices store nothing, as the
check guarantees capacity beforehand). -/
def storeSlot (t : Table) (i : Nat) (v : TValue) : Table :=
  { t with array := t.array.set i (some v) }

/-- Modelled from the spec: one guarded append as generated code
performs it — run the write-bounds check at index `i`, then commit the
value at `i`. -/
def guardedWrite (t : Table) (i : Nat) (v : TValue) (line col : Int) :
    Except String Table :=
  match titan_runtime_array_out_of_bounds_write t i line col with
  | .error e => .error e
  | .ok t1 => .ok (storeSlot t1 i v)

/-- Modelled from the spec: a sequence of guarded writes, performed in
order; stops at the first raised diagnostic. -/
def guardedWrites (t : Table) : List (Nat × TValue) → Except String Table
  | [] => .ok t
  | (i, v) :: rest =>
      match guardedWrite t i v 0 0 with
      | .error e => .error e
      | .ok t1 => guardedWrites t1 rest

/-- Modelled from the spec: the Array Element Type Checker as invoked by
generated code (§4.5) — on a hole, or on a present slot with the wrong
tag, it raises through `titan_runtime_array_type_error`; on a present
slot with the expected tag it returns normally. -/
def array_element_type_check (line : Int) (expected_tag : Nat)
    (slot : Option TValue) : Except String Unit :=
  match slot with
  | none => .error (titan_runtime_array_type_error line expected_tag slot)
  | some v =>
      if rawtt v = expected_tag then .ok ()
      else .error (titan_runtime_array_type_error line expected_tag slot)

/-- Modelled from the spec: the generic Argument Type Checker as invoked
by generated code (§4.3) — compare tags for equality, raising through
`titan_runtime_argument_type_error` on mismatch. -/
def argument_type_check (param_name : String) (line : Int)
    (expected_tag : Nat) (v : TValue) : Except String Unit :=
  if rawtt v = expected_tag then .ok ()
  else .error (titan_runtime_argument_type_error param_name line expected_tag v)

end Titan

namespace Titan

/-- A table with an empty hash region is already normalized. -/
theorem normalize_of_hash_nil {t : Table} (h : t.hash = []) :
    luaH_titan_normalize_table t = t := by
  unfold luaH_titan_normalize_table
  rw [h]
  rfl

/-- Filtering out the key found by a successful lookup strictly shrinks
the association list. -/
theorem length_filter_lookup_lt {l : List (Nat × TValue)} {a : Nat}
    {v : TValue} (h : l.lookup a = some v) :
    (l.filter (fun p => p.1 != a)).length < l.length := by
  induction l with
  | nil => simp at h
  | cons p rest ih =>
    obtain ⟨k, b⟩ := p
    by_cases hk : a = k
    · have hf : (k != a) = false := by simp [hk]
      simp only [List.filter_cons, hf, List.length_cons]
      exact Nat.lt_succ_of_le (List.length_filter_le _ _)
    · have hbeq : (a == k) = false := by simp [hk]
      have hl : rest.lookup a = some v := by
        rw [List.lookup_cons, hbeq] at h
        exact h
      have hf : (k != a) = true := by
        simp only [bne_iff_ne, ne_eq]
        exact fun hh => hk hh.symm
      simp only [List.filter_cons, hf, if_true, List.length_cons]
      exact Nat.succ_lt_succ (ih hl)

/-- A table whose hash region holds no entry at the next array index is a
fixpoint of the normalization worker, at any fuel. -/
theorem normalizeAux_fix {fuel : Nat} {t : Table}
    (h : t.hash.lookup t.array.length = none) : normalizeAux fuel t = t := by
  cases fuel with
  | zero => rfl
  | succ n => simp [normalizeAux, h]

/-- With fuel at least the hash-region length, the normalization worker
reaches a state with no hash entry at the next array index. -/
theorem normalizeAux_lookup_none :
    ∀ (fuel : Nat) (t : Table), t.hash.length ≤ fuel →
      (normalizeAux fuel t).hash.lookup (normalizeAux fuel t).array.length =
        none := by
  intro fuel
  induction fuel with
  | zero =>
    intro t h
    have hnil : t.hash = [] := List.length_eq_zero.mp (Nat.le_zero.mp h)
    simp [normalizeAux, hnil]
  | succ n ih =>
    intro t h
    cases hl : t.hash.lookup t.array.length with
    | none => simp [normalizeAux, hl]
    | some v =>
      have hlt := length_filter_lookup_lt hl
      have hle : (t.hash.filter
          (fun p => p.1 != t.array.length)).length ≤ n := by omega
      simp only [normalizeAux, hl]
      exact ih _ hle

/-- Normalization is idempotent, as the spec requires of the host. -/
theorem normalize_idem (t : Table) :
    luaH_titan_normalize_table (luaH_titan_normalize_table t) =
      luaH_titan_normalize_table t := by
  have h := normalizeAux_lookup_none t.hash.length t (Nat.le_refl _)
  unfold luaH_titan_normalize_table at h ⊢
  exact normalizeAux_fix h

/-- The read check is normalization followed by the pure bounds
decision. -/
theorem read_eq_decision (t : Table) (ui : Nat) (line col : Int) :
    titan_runtime_array_out_of_bounds_read t ui line col =
      read_bounds_decision (luaH_titan_normalize_table t) ui line col := rfl

/-- The write check is normalization followed by the pure bounds/growth
decision. -/
theorem write_eq_decision (t : Table) (ui : Nat) (line col : Int) :
    titan_runtime_array_out_of_bounds_write t ui line col =
      write_bounds_decision (luaH_titan_normalize_table t) ui line col := rfl

/-- Read succeeds below the post-normalization size and returns the
normalized table. -/
theorem read_ok_of_lt {t : Table} {ui : Nat} (line col : Int)
    (h : ui < (luaH_titan_normalize_table t).sizearray) :
    titan_runtime_array_out_of_bounds_read t ui line col =
      .ok (luaH_titan_normalize_table t) := by
  rw [read_eq_decision]
  unfold read_bounds_decision
  rw [if_neg (by omega)]

/-- Read raises the "outside array part" diagnostic at or above the
post-normalization size. -/
theorem read_error_of_le {t : Table} {ui : Nat} (line col : Int)
    (h : (luaH_titan_normalize_table t).sizearray ≤ ui) :
    titan_runtime_array_out_of_bounds_read t ui line col =
      .error (titan_runtime_array_bounds_error line col) := by
  rw [read_eq_decision]
  unfold read_bounds_decision
  rw [if_pos h]

/-- Write raises the "outside array part" diagnostic strictly above the
post-normalization size. -/
theorem write_error_of_lt {t : Table} {ui : Nat} (line col : Int)
    (h : (luaH_titan_normalize_table t).sizearray < ui) :
    titan_runtime_array_out_of_bounds_write t ui line col =
      .error (titan_runtime_array_bounds_error line col) := by
  rw [write_eq_decision]
  unfold write_bounds_decision
  rw [if_pos h]

/-- Write at exactly the post-normalization size resizes to the doubled
(or initial) capacity. -/
theorem write_ok_of_eq {t : Table} {ui : Nat} (line col : Int)
    (h : ui = (luaH_titan_normalize_table t).sizearray) :
    titan_runtime_array_out_of_bounds_write t ui line col =
      .ok (luaH_resizearray (luaH_titan_normalize_table t)
        (if (luaH_titan_normalize_table t).sizearray = 0 then 1
          else (2 * (luaH_titan_normalize_table t).sizearray) % UINT_MOD)) := by
  rw [write_eq_decision]
  unfold write_bounds_decision
  rw [if_neg (by omega), if_pos h]

/-- Write strictly below the post-normalization size returns the
normalized table untouched. -/
theorem write_ok_of_lt {t : Table} {ui : Nat} (line col : Int)
    (h : ui < (luaH_titan_normalize_table t).sizearray) :
    titan_runtime_array_out_of_bounds_write t ui line col =
      .ok (luaH_titan_normalize_table t) := by
  rw [write_eq_decision]
  unfold write_bounds_decision
  rw [if_neg (by omega), if_neg (by omega)]

/-- The resize operation sets the physical capacity to exactly the
requested target. -/
theorem sizearray_resize (t : Table) (n : Nat) :
    (luaH_resizearray t n).sizearray = n := by
  show (t.array.take n ++ List.replicate (n - t.array.length) none).length = n
  rw [List.length_append, List.length_take, List.length_replicate]
  omega

/-- Resizing preserves every slot that lies below both the old capacity
and the target. -/
theorem resize_get_lt {t : Table} {n j : Nat} (hj : j < t.sizearray)
    (hn : j < n) :
    (luaH_resizearray t n).array[j]? = t.array[j]? := by
  have hj2 : j < t.array.length := hj
  have hlen : j < (t.array.take n).length := by
    rw [List.length_take]
    omega
  show (t.array.take n ++ List.replicate (n - t.array.length) none)[j]? =
    t.array[j]?
  rw [List.getElem?_append_left hlen, List.getElem?_take_of_lt hn]

/-- Slots uncovered by a growing resize are holes. -/
theorem resize_get_new {t : Table} {n j : Nat} (hj : t.sizearray ≤ j)
    (hn : j < n) :
    (luaH_resizearray t n).array[j]? = some none := by
  have hj2 : t.array.length ≤ j := hj
  have htake : t.array.take n = t.array := List.take_of_length_le (by omega)
  show (t.array.take n ++ List.replicate (n - t.array.length) none)[j]? =
    some none
  rw [htake, List.getElem?_append, if_neg (by omega),
    List.getElem?_replicate, if_pos (by omega)]

/-- A growing resize does not change the number of committed slots. -/
theorem committed_resize_grow {t : Table} {n : Nat} (h : t.sizearray ≤ n) :
    (luaH_resizearray t n).committed = t.committed := by
  have htake : t.array.take n = t.array := List.take_of_length_le h
  show (t.array.take n ++ List.replicate (n - t.array.length) none).countP
      (fun (s : Option TValue) => s.isSome) =
    t.array.countP (fun (s : Option TValue) => s.isSome)
  rw [htake, List.countP_append, List.countP_replicate]
  simp

/-- The committed store places the value at its index. -/
theorem store_get_self {t : Table} {i : Nat} (v : TValue)
    (h : i < t.sizearray) :
    (storeSlot t i v).array[i]? = some (some v) := by
  have h2 : i < t.array.length := h
  show (t.array.set i (some v))[i]? = some (some v)
  exact List.getElem?_set_self h2

/-- The committed store leaves every other slot unchanged. -/
theorem store_get_ne {t : Table} {i j : Nat} (v : TValue) (h : i ≠ j) :
    (storeSlot t i v).array[j]? = t.array[j]? :=
  List.getElem?_set_ne h

/-- Committing a value into a hole raises the committed-slot count by
exactly one. -/
theorem countP_set_some :
    ∀ (l : List (Option TValue)) (i : Nat) (v : TValue), l[i]? = some none →
      (l.set i (some v)).countP (fun s => s.isSome) =
        l.countP (fun s => s.isSome) + 1 := by
  intro l
  induction l with
  | nil =>
    intro i v h
    simp at h
  | cons a tl ih =>
    intro i v h
    cases i with
    | zero =>
      simp only [List.getElem?_cons_zero, Option.some.injEq] at h
      subst h
      simp [List.countP_cons]
    | succ n =>
      simp only [List.getElem?_cons_succ] at h
      show ((a :: tl.set n (some v)).countP
          (fun (s : Option TValue) => s.isSome)) =
        (a :: tl).countP (fun (s : Option TValue) => s.isSome) + 1
      rw [List.countP_cons, List.countP_cons, ih n v h]
      omega

/-- Committing a value into a hole of a table raises its committed-slot
count by exactly one. -/
theorem committed_store_hole {t : Table} {i : Nat} (v : TValue)
    (h : t.array[i]? = some none) :
    (storeSlot t i v).committed = t.committed + 1 :=
  countP_set_some t.array i v h

/-- The read check succeeds exactly below the post-normalization size. -/
theorem read_ok_iff {t : Table} {ui : Nat} {line col : Int} :
    (∃ x, titan_runtime_array_out_of_bounds_read t ui line col = .ok x) ↔
      ui < (luaH_titan_normalize_table t).sizearray := by
  constructor
  · rintro ⟨x, hx⟩
    by_contra hh
    push_neg at hh
    rw [read_error_of_le line col hh] at hx
    exact Except.noConfusion hx
  · intro hlt
    exact ⟨_, read_ok_of_lt line col hlt⟩

/-- The read check raises exactly at or above the post-normalization
size. -/
theorem read_error_iff {t : Table} {ui : Nat} {line col : Int} :
    (∃ e, titan_runtime_array_out_of_bounds_read t ui line col = .error e) ↔
      (luaH_titan_normalize_table t).sizearray ≤ ui := by
  constructor
  · rintro ⟨e, he⟩
    by_contra hh
    push_neg at hh
    rw [read_ok_of_lt line col hh] at he
    exact Except.noConfusion he
  · intro hle
    exact ⟨_, read_error_of_le line col hle⟩

/-- The write check succeeds exactly at or below the post-normalization
size. -/
theorem write_ok_iff {t : Table} {ui : Nat} {line col : Int} :
    (∃ x, titan_runtime_array_out_of_bounds_write t ui line col = .ok x) ↔
      ui ≤ (luaH_titan_normalize_table t).sizearray := by
  constructor
  · rintro ⟨x, hx⟩
    by_contra hh
    push_neg at hh
    rw [write_error_of_lt line col hh] at hx
    exact Except.noConfusion hx
  · intro hle
    rcases Nat.lt_or_ge ui (luaH_titan_normalize_table t).sizearray with h | h
    · exact ⟨_, write_ok_of_lt line col h⟩
    · exact ⟨_, write_ok_of_eq line col (Nat.le_antisymm hle h)⟩

/-- The write check raises exactly strictly above the post-normalization
size. -/
theorem write_error_iff {t : Table} {ui : Nat} {line col : Int} :
    (∃ e, titan_runtime_array_out_of_bounds_write t ui line col = .error e) ↔
      (luaH_titan_normalize_table t).sizearray < ui := by
  constructor
  · rintro ⟨e, he⟩
    by_contra hh
    push_neg at hh
    rcases Nat.lt_or_ge ui (luaH_titan_normalize_table t).sizearray with h | h
    · rw [write_ok_of_lt line col h] at he
      exact Except.noConfusion he
    · rw [write_ok_of_eq line col (Nat.le_antisymm hh h)] at he
      exact Except.noConfusion he
  · intro hlt
    exact ⟨_, write_error_of_lt line col hlt⟩

/-- When the write check requests a capacity, the check resolves to the
host resize at exactly that capacity. -/
theorem write_resize_of_request {t : Table} {ui n : Nat} (line col : Int)
    (h : write_request (luaH_titan_normalize_table t).sizearray ui = some n) :
    titan_runtime_array_out_of_bounds_write t ui line col =
      .ok (luaH_resizearray (luaH_titan_normalize_table t) n) := by
  unfold write_request at h
  by_cases he : ui = (luaH_titan_normalize_table t).sizearray
  · rw [if_pos he] at h
    injection h with h
    rw [← h]
    exact write_ok_of_eq line col he
  · rw [if_neg he] at h
    exact absurd h (by simp)

/-- C2: for every normalized table of logical array size S and every
unsigned index i, the read-bounds check returns normally if i < S and
raises the "outside array part" ArrayBoundsViolation if i ≥ S; the
write-bounds check raises that violation if and only if i > S, and for
i < S it returns normally without growing the array region. -/
theorem claim_C2_bounds_decisions (t : Table) (ui : Nat) (line col : Int) :
    (ui < (luaH_titan_normalize_table t).sizearray →
      titan_runtime_array_out_of_bounds_read t ui line col =
        .ok (luaH_titan_normalize_table t)) ∧
    ((luaH_titan_normalize_table t).sizearray ≤ ui →
      titan_runtime_array_out_of_bounds_read t ui line col =
        .error (titan_runtime_array_bounds_error line col)) ∧
    ((∃ e, titan_runtime_array_out_of_bounds_write t ui line col =
        .error e) ↔ (luaH_titan_normalize_table t).sizearray < ui) ∧
    ((luaH_titan_normalize_table t).sizearray < ui →
      titan_runtime_array_out_of_bounds_write t ui line col =
        .error (titan_runtime_array_bounds_error line col)) ∧
    (ui < (luaH_titan_normalize_table t).sizearray →
      titan_runtime_array_out_of_bounds_write t ui line col =
        .ok (luaH_titan_normalize_table t)) :=
  ⟨fun h => read_ok_of_lt line col h,
   fun h => read_error_of_le line col h,
   write_error_iff,
   fun h => write_error_of_lt line col h,
   fun h => write_ok_of_lt line col h⟩

/-- Witness for C2 at a table of normalized size 2: index 1 reads and
overwrites in place, index 5 raises on read and on write. -/
theorem claim_C2_witness :
    (1 < (luaH_titan_normalize_table
        ⟨[some ⟨LUA_TNUMINT, 0⟩, none], []⟩).sizearray ∧
      titan_runtime_array_out_of_bounds_read
          ⟨[some ⟨LUA_TNUMINT, 0⟩, none], []⟩ 1 7 9 =
        .ok (luaH_titan_normalize_table
          ⟨[some ⟨LUA_TNUMINT, 0⟩, none], []⟩)) ∧
    ((luaH_titan_normalize_table
        ⟨[some ⟨LUA_TNUMINT, 0⟩, none], []⟩).sizearray ≤ 5 ∧
      titan_runtime_array_out_of_bounds_read
          ⟨[some ⟨LUA_TNUMINT, 0⟩, none], []⟩ 5 7 9 =
        .error (titan_runtime_array_bounds_error 7 9)) ∧
    ((luaH_titan_normalize_table
        ⟨[some ⟨LUA_TNUMINT, 0⟩, none], []⟩).sizearray < 5 ∧
      titan_runtime_array_out_of_bounds_write
          ⟨[some ⟨LUA_TNUMINT, 0⟩, none], []⟩ 5 7 9 =
        .error (titan_runtime_array_bounds_error 7 9)) ∧
    (1 < (luaH_titan_normalize_table
        ⟨[some ⟨LUA_TNUMINT, 0⟩, none], []⟩).sizearray ∧
      titan_runtime_array_out_of_bounds_write
          ⟨[some ⟨LUA_TNUMINT, 0⟩, none], []⟩ 1 7 9 =
        .ok (luaH_titan_normalize_table
          ⟨[some ⟨LUA_TNUMINT, 0⟩, none], []⟩)) :=
  ⟨⟨by decide,
    (claim_C2_bounds_decisions ⟨[some ⟨LUA_TNUMINT, 0⟩, none], []⟩ 1 7 9).1
      (by decide)⟩,
   ⟨by decide,
    (claim_C2_bounds_decisions
        ⟨[some ⟨LUA_TNUMINT, 0⟩, none], []⟩ 5 7 9).2.1 (by decide)⟩,
   ⟨by decide,
    (claim_C2_bounds_decisions
        ⟨[some ⟨LUA_TNUMINT, 0⟩, none], []⟩ 5 7 9).2.2.2.1 (by decide)⟩,
   ⟨by decide,
    (claim_C2_bounds_decisions
        ⟨[some ⟨LUA_TNUMINT, 0⟩, none], []⟩ 1 7 9).2.2.2.2 (by decide)⟩⟩

/-- C6: normalization is performed as a precondition of every bounds
decision — both checks factor as the host's normalize-table operation
followed by a pure decision over the normalized size, normalization is
idempotent, and running a check on an already-normalized table decides
identically. -/
theorem claim_C6_normalize_precondition (t : Table) (ui : Nat)
    (line col : Int) :
    titan_runtime_array_out_of_bounds_read t ui line col =
      read_bounds_decision (luaH_titan_normalize_table t) ui line col ∧
    titan_runtime_array_out_of_bounds_write t ui line col =
      write_bounds_decision (luaH_titan_normalize_table t) ui line col ∧
    luaH_titan_normalize_table (luaH_titan_normalize_table t) =
      luaH_titan_normalize_table t ∧
    titan_runtime_array_out_of_bounds_read
        (luaH_titan_normalize_table t) ui line col =
      titan_runtime_array_out_of_bounds_read t ui line col ∧
    titan_runtime_array_out_of_bounds_write
        (luaH_titan_normalize_table t) ui line col =
      titan_runtime_array_out_of_bounds_write t ui line col := by
  refine ⟨rfl, rfl, normalize_idem t, ?_, ?_⟩
  · rw [read_eq_decision, read_eq_decision, normalize_idem]
  · rw [write_eq_decision, write_eq_decision, normalize_idem]

/-- C8: every diagnostic raised by this layer matches its specified
format exactly, with each type name produced by the Tag Namer
`titan_tag_name`; the hole violation carries no column. -/
theorem claim_C8_diagnostic_formats (expected received : Int)
    (param : String) (line col : Int) (e_tag : Nat) (v : TValue) :
    titan_runtime_arity_error expected received =
      "wrong number of arguments to function, expected " ++
        toString expected ++ " but received " ++ toString received ∧
    titan_runtime_argument_type_error param line e_tag v =
      "wrong type for argument " ++ param ++ " at line " ++ toString line ++
        ", expected " ++ titan_tag_name e_tag ++ " but found " ++
        titan_tag_name v.tag ∧
    titan_runtime_array_bounds_error line col =
      "out of bounds (outside array part) at line " ++ toString line ++
        ", col " ++ toString col ∧
    titan_runtime_array_type_error line e_tag none =
      "out of bounds (inside array part) at line " ++ toString line ∧
    titan_runtime_array_type_error line e_tag (some v) =
      "wrong type for array element at line " ++ toString line ++
        ", expected " ++ titan_tag_name e_tag ++ " but found " ++
        titan_tag_name v.tag ∧
    titan_runtime_function_return_error line e_tag v =
      "wrong type for function result at line " ++ toString line ++
        ", expected " ++ titan_tag_name e_tag ++ " but found " ++
        titan_tag_name v.tag :=
  ⟨rfl, rfl, rfl, rfl, rfl, rfl⟩

/-- C9: the success-or-raise decision of both bounds checks, and the
capacity requested on growth, depend only on the index and the
post-normalization array size — two tables of equal post-normalization
size decide identically at the same index, whatever their slot values,
hash regions, or line and column arguments; the requested capacity,
`write_request`, is exactly what the check passes to the host resize. -/
theorem claim_C9_size_only_decisions (t1 t2 : Table) (ui : Nat)
    (l1 c1 l2 c2 : Int)
    (h : (luaH_titan_normalize_table t1).sizearray =
      (luaH_titan_normalize_table t2).sizearray) :
    ((∃ x, titan_runtime_array_out_of_bounds_read t1 ui l1 c1 = .ok x) ↔
      (∃ x, titan_runtime_array_out_of_bounds_read t2 ui l2 c2 = .ok x)) ∧
    ((∃ e, titan_runtime_array_out_of_bounds_read t1 ui l1 c1 = .error e) ↔
      (∃ e, titan_runtime_array_out_of_bounds_read t2 ui l2 c2 = .error e)) ∧
    ((∃ x, titan_runtime_array_out_of_bounds_write t1 ui l1 c1 = .ok x) ↔
      (∃ x, titan_runtime_array_out_of_bounds_write t2 ui l2 c2 = .ok x)) ∧
    ((∃ e, titan_runtime_array_out_of_bounds_write t1 ui l1 c1 = .error e) ↔
      (∃ e, titan_runtime_array_out_of_bounds_write t2 ui l2 c2 = .error e)) ∧
    write_request (luaH_titan_normalize_table t1).sizearray ui =
      write_request (luaH_titan_normalize_table t2).sizearray ui ∧
    (∀ n, write_request (luaH_titan_normalize_table t1).sizearray ui =
        some n →
      titan_runtime_array_out_of_bounds_write t1 ui l1 c1 =
        .ok (luaH_resizearray (luaH_titan_normalize_table t1) n)) := by
  refine ⟨?_, ?_, ?_, ?_, by rw [h], fun n hn => write_resize_of_request l1 c1 hn⟩
  · rw [read_ok_iff, read_ok_iff, h]
  · rw [read_error_iff, read_error_iff, h]
  · rw [write_ok_iff, write_ok_iff, h]
  · rw [write_error_iff, write_error_iff, h]

/-- Witness for C9: a table with a committed and a hole slot and a table
with a pending hash entry normalize to the same size 2, and the write
check at index 2 decides identically on both, requesting capacity 4. -/
theorem claim_C9_witness :
    ((luaH_titan_normalize_table
        ⟨[some ⟨LUA_TNUMINT, 1⟩, none], []⟩).sizearray =
      (luaH_titan_normalize_table
        ⟨[some ⟨LUA_TNUMFLT, 8⟩], [(1, ⟨LUA_TNUMINT, 9⟩)]⟩).sizearray) ∧
    (((∃ x, titan_runtime_array_out_of_bounds_write
          ⟨[some ⟨LUA_TNUMINT, 1⟩, none], []⟩ 2 3 4 = .ok x) ↔
        (∃ x, titan_runtime_array_out_of_bounds_write
          ⟨[some ⟨LUA_TNUMFLT, 8⟩], [(1, ⟨LUA_TNUMINT, 9⟩)]⟩ 2 5 6 = .ok x)) ∧
      write_request (luaH_titan_normalize_table
          ⟨[some ⟨LUA_TNUMINT, 1⟩, none], []⟩).sizearray 2 =
        write_request (luaH_titan_normalize_table
          ⟨[some ⟨LUA_TNUMFLT, 8⟩], [(1, ⟨LUA_TNUMINT, 9⟩)]⟩).sizearray 2) :=
  ⟨by decide,
   ⟨(claim_C9_size_only_decisions
        ⟨[some ⟨LUA_TNUMINT, 1⟩, none], []⟩
        ⟨[some ⟨LUA_TNUMFLT, 8⟩], [(1, ⟨LUA_TNUMINT, 9⟩)]⟩
        2 3 4 5 6 (by decide)).2.2.1,
    (claim_C9_size_only_decisions
        ⟨[some ⟨LUA_TNUMINT, 1⟩, none], []⟩
        ⟨[some ⟨LUA_TNUMFLT, 8⟩], [(1, ⟨LUA_TNUMINT, 9⟩)]⟩
        2 3 4 5 6 (by decide)).2.2.2.2.1⟩⟩

/-- C10: in the growth branch the new capacity 2 × size is computed in
`unsigned int` arithmetic with no overflow check — for every table whose
post-normalization size lies in [2^31, 2^32), the capacity requested
from the host resize is (2 × size) mod 2^32, which differs from the true
doubled value. -/
theorem claim_C10_unsigned_overflow (t : Table) (ui : Nat) (line col : Int)
    (hw : 2 ^ 31 ≤ (luaH_titan_normalize_table t).sizearray)
    (hb : (luaH_titan_normalize_table t).sizearray < 2 ^ 32)
    (he : ui = (luaH_titan_normalize_table t).sizearray) :
    titan_runtime_array_out_of_bounds_write t ui line col =
      .ok (luaH_resizearray (luaH_titan_normalize_table t)
        ((2 * (luaH_titan_normalize_table t).sizearray) % UINT_MOD)) ∧
    write_request (luaH_titan_normalize_table t).sizearray ui =
      some ((2 * (luaH_titan_normalize_table t).sizearray) % UINT_MOD) ∧
    (2 * (luaH_titan_normalize_table t).sizearray) % UINT_MOD ≠
      2 * (luaH_titan_normalize_table t).sizearray := by
  have hu : UINT_MOD = 4294967296 := by norm_num [UINT_MOD]
  have hw2 : 2147483648 ≤ (luaH_titan_normalize_table t).sizearray := by
    calc (2147483648 : Nat) = 2 ^ 31 := by norm_num
    _ ≤ _ := hw
  have hS0 : (luaH_titan_normalize_table t).sizearray ≠ 0 := by omega
  refine ⟨?_, ?_, ?_⟩
  · have h1 := write_ok_of_eq line col he
    rw [if_neg hS0] at h1
    exact h1
  · unfold write_request
    rw [if_pos he, if_neg hS0]
  · intro hc
    have h1 : (2 * (luaH_titan_normalize_table t).sizearray) % UINT_MOD <
        UINT_MOD := Nat.mod_lt _ (by rw [hu]; norm_num)
    omega

/-- Witness for C10 at a table of capacity 2^31 holding only holes: the
requested capacity wraps to 0. -/
theorem claim_C10_witness :
    (2 ^ 31 ≤ (luaH_titan_normalize_table
      ⟨List.replicate (2 ^ 31) none, []⟩).sizearray) ∧
    ((luaH_titan_normalize_table
      ⟨List.replicate (2 ^ 31) none, []⟩).sizearray < 2 ^ 32) ∧
    (2 ^ 31 = (luaH_titan_normalize_table
      ⟨List.replicate (2 ^ 31) none, []⟩).sizearray) ∧
    write_request (luaH_titan_normalize_table
        ⟨List.replicate (2 ^ 31) none, []⟩).sizearray (2 ^ 31) =
      some ((2 * (luaH_titan_normalize_table
        ⟨List.replicate (2 ^ 31) none, []⟩).sizearray) % UINT_MOD) ∧
    (2 * (luaH_titan_normalize_table
        ⟨List.replicate (2 ^ 31) none, []⟩).sizearray) % UINT_MOD ≠
      2 * (luaH_titan_normalize_table
        ⟨List.replicate (2 ^ 31) none, []⟩).sizearray := by
  have hs : (luaH_titan_normalize_table
      (⟨List.replicate (2 ^ 31) none, []⟩ : Table)).sizearray = 2 ^ 31 := by
    rw [normalize_of_hash_nil rfl]
    show (List.replicate (2 ^ 31) (none : Option TValue)).length = 2 ^ 31
    rw [List.length_replicate]
  refine ⟨by rw [hs], by rw [hs]; norm_num, hs.symm, ?_, ?_⟩
  · exact (claim_C10_unsigned_overflow
      ⟨List.replicate (2 ^ 31) none, []⟩ (2 ^ 31) 0 0
      (by rw [hs]) (by rw [hs]; norm_num) hs.symm).2.1
  · exact (claim_C10_unsigned_overflow
      ⟨List.replicate (2 ^ 31) none, []⟩ (2 ^ 31) 0 0
      (by rw [hs]) (by rw [hs]; norm_num) hs.symm).2.2

/-- C5: the array-element type check raises the "inside array part"
ArrayBoundsViolation on an empty slot regardless of the expected tag;
on a present slot it returns normally exactly when the slot's tag equals
the expected tag, raising ArrayElementTypeMismatch otherwise (through
`titan_runtime_array_type_error`, which names both type names through
the Tag Namer), and accepts exactly when the generic type check does. -/
theorem claim_C5_element_type_check (line : Int) (expected : Nat)
    (v : TValue) (param : String) :
    array_element_type_check line expected none =
      .error (titan_runtime_array_type_error line expected none) ∧
    titan_runtime_array_type_error line expected none =
      "out of bounds (inside array part) at line " ++ toString line ∧
    (rawtt v = expected →
      array_element_type_check line expected (some v) = .ok ()) ∧
    (rawtt v ≠ expected →
      array_element_type_check line expected (some v) =
        .error (titan_runtime_array_type_error line expected (some v))) ∧
    ((array_element_type_check line expected (some v)).isOk ↔
      (argument_type_check param line expected v).isOk) := by
  refine ⟨rfl, rfl, ?_, ?_, ?_⟩
  · intro h
    simp [array_element_type_check, h]
  · intro h
    simp [array_element_type_check, h]
  · by_cases h : rawtt v = expected <;>
      simp [array_element_type_check, argument_type_check, h, Except.isOk,
        Except.toBool]

/-- Witness for C5: an integer-tagged slot accepted against the integer
tag and rejected against the float tag, with hole behaviour at both. -/
theorem claim_C5_witness :
    (array_element_type_check 11 LUA_TNUMINT none =
      .error (titan_runtime_array_type_error 11 LUA_TNUMINT none)) ∧
    (rawtt ⟨LUA_TNUMINT, 4⟩ = LUA_TNUMINT ∧
      array_element_type_check 11 LUA_TNUMINT (some ⟨LUA_TNUMINT, 4⟩) =
        .ok ()) ∧
    (rawtt ⟨LUA_TNUMINT, 4⟩ ≠ LUA_TNUMFLT ∧
      array_element_type_check 11 LUA_TNUMFLT (some ⟨LUA_TNUMINT, 4⟩) =
        .error (titan_runtime_array_type_error 11 LUA_TNUMFLT
          (some ⟨LUA_TNUMINT, 4⟩))) :=
  ⟨(claim_C5_element_type_check 11 LUA_TNUMINT ⟨LUA_TNUMINT, 4⟩ "x").1,
   ⟨by decide,
    (claim_C5_element_type_check 11 LUA_TNUMINT
      ⟨LUA_TNUMINT, 4⟩ "x").2.2.1 (by decide)⟩,
   ⟨by decide,
    (claim_C5_element_type_check 11 LUA_TNUMFLT
      ⟨LUA_TNUMINT, 4⟩ "x").2.2.2.1 (by decide)⟩⟩

/-- Counterexample to C7 as stated: on a table holding the pending
integer key 0 in its hash region, the read-bounds check at index 0
returns normally, yet the table has changed — normalization, triggered
by the check itself, migrated the entry into the array region. -/
theorem claim_C7_counterexample :
    titan_runtime_array_out_of_bounds_read
        ⟨[], [(0, ⟨LUA_TNUMINT, 5⟩)]⟩ 0 3 4 =
      .ok ⟨[some ⟨LUA_TNUMINT, 5⟩], []⟩ ∧
    (⟨[some ⟨LUA_TNUMINT, 5⟩], []⟩ : Table) ≠
      ⟨[], [(0, ⟨LUA_TNUMINT, 5⟩)]⟩ :=
  ⟨rfl, by decide⟩

/-- C7 (amended): the read-bounds check performs no mutation beyond the
normalization it triggers — whenever it returns normally it returns
exactly the normalized table, and on a table with an empty (already
reconciled) hash region it leaves the table completely unchanged. -/
theorem claim_C7_read_pure_guard (t : Table) (ui : Nat) (line col : Int) :
    (∀ t2, titan_runtime_array_out_of_bounds_read t ui line col = .ok t2 →
      t2 = luaH_titan_normalize_table t) ∧
    (t.hash = [] →
      ∀ t2, titan_runtime_array_out_of_bounds_read t ui line col = .ok t2 →
        t2 = t) := by
  have key : ∀ t2, titan_runtime_array_out_of_bounds_read t ui line col =
      .ok t2 → t2 = luaH_titan_normalize_table t := by
    intro t2 h
    rcases Nat.lt_or_ge ui (luaH_titan_normalize_table t).sizearray with
      hlt | hge
    · rw [read_ok_of_lt line col hlt] at h
      injection h with h
      exact h.symm
    · rw [read_error_of_le line col hge] at h
      exact Except.noConfusion h
  refine ⟨key, fun hn t2 h => ?_⟩
  rw [key t2 h, normalize_of_hash_nil hn]

/-- Witness for C7 (amended) at an already-normalized one-slot table:
the read check at index 0 succeeds and returns the table unchanged. -/
theorem claim_C7_witness :
    (titan_runtime_array_out_of_bounds_read
        ⟨[some ⟨LUA_TNUMFLT, 2⟩], []⟩ 0 1 2 =
      .ok ⟨[some ⟨LUA_TNUMFLT, 2⟩], []⟩) ∧
    ((⟨[some ⟨LUA_TNUMFLT, 2⟩], []⟩ : Table) =
      luaH_titan_normalize_table ⟨[some ⟨LUA_TNUMFLT, 2⟩], []⟩) ∧
    ((⟨[some ⟨LUA_TNUMFLT, 2⟩], []⟩ : Table).hash = []) ∧
    ((⟨[some ⟨LUA_TNUMFLT, 2⟩], []⟩ : Table) =
      ⟨[some ⟨LUA_TNUMFLT, 2⟩], []⟩) :=
  ⟨rfl,
   (claim_C7_read_pure_guard
     ⟨[some ⟨LUA_TNUMFLT, 2⟩], []⟩ 0 1 2).1 _ rfl,
   rfl,
   (claim_C7_read_pure_guard
     ⟨[some ⟨LUA_TNUMFLT, 2⟩], []⟩ 0 1 2).2 rfl _ rfl⟩

/-- At capacity 2^31 the doubled capacity wraps to 0 in `unsigned int`
arithmetic, so the append-triggered resize empties the array region. -/
theorem write_at_pow31 {l : List (Option TValue)} (h : l.length = 2 ^ 31) :
    titan_runtime_array_out_of_bounds_write ⟨l, []⟩ (2 ^ 31) 0 0 =
      .ok ⟨[], []⟩ := by
  have hn : luaH_titan_normalize_table ⟨l, []⟩ = ⟨l, []⟩ :=
    normalize_of_hash_nil rfl
  have hs : (luaH_titan_normalize_table (⟨l, []⟩ : Table)).sizearray =
      2 ^ 31 := by
    rw [hn]
    exact h
  rw [write_ok_of_eq 0 0 hs.symm, hs, hn]
  have hz : (2 * 2 ^ 31) % UINT_MOD = 0 := by norm_num [UINT_MOD]
  rw [if_neg (by norm_num), hz]
  show Except.ok (⟨l.take 0 ++ List.replicate (0 - l.length) none, []⟩ :
    Table) = .ok ⟨[], []⟩
  rw [List.take_zero, Nat.zero_sub, List.replicate_zero, List.nil_append]

/-- Counterexample to C1 as stated: at capacity 2^31 the claimed new
capacity would be 2 × 2^31, but the check requests the wrapped value 0,
so the resulting capacity is 0. -/
theorem claim_C1_counterexample :
    titan_runtime_array_out_of_bounds_write
        ⟨List.replicate (2 ^ 31) none, []⟩ (2 ^ 31) 0 0 = .ok ⟨[], []⟩ ∧
    (⟨[], []⟩ : Table).sizearray ≠ 2 * 2 ^ 31 :=
  ⟨write_at_pow31 (List.length_replicate _ _),
   by show ([] : List (Option TValue)).length ≠ 2 * 2 ^ 31; norm_num⟩

/-- C1 (amended): the growth policy requests capacity 1 when the
current capacity is 0 and (2 × capacity) mod 2^32 otherwise — equal to
2 × capacity whenever the doubled capacity does not overflow `unsigned
int`; a capacity is requested exactly when the index equals the size;
sequential appends from the empty table at indices 0..5 produce the
capacity sequence 0→1→2→4→4→8→8 and preserve every previously stored
slot; and each non-overflowing growth preserves every stored slot. -/
theorem claim_C1_growth_policy (t : Table) (ui : Nat) (line col : Int)
    (v0 v1 v2 v3 v4 v5 : TValue) :
    (ui = (luaH_titan_normalize_table t).sizearray →
      (luaH_titan_normalize_table t).sizearray = 0 →
      titan_runtime_array_out_of_bounds_write t ui line col =
        .ok (luaH_resizearray (luaH_titan_normalize_table t) 1)) ∧
    (ui = (luaH_titan_normalize_table t).sizearray →
      (luaH_titan_normalize_table t).sizearray ≠ 0 →
      titan_runtime_array_out_of_bounds_write t ui line col =
        .ok (luaH_resizearray (luaH_titan_normalize_table t)
          ((2 * (luaH_titan_normalize_table t).sizearray) % UINT_MOD))) ∧
    (write_request (luaH_titan_normalize_table t).sizearray ui ≠ none ↔
      ui = (luaH_titan_normalize_table t).sizearray) ∧
    (∀ j t2, ui = (luaH_titan_normalize_table t).sizearray →
      2 * (luaH_titan_normalize_table t).sizearray < UINT_MOD →
      j < (luaH_titan_normalize_table t).sizearray →
      titan_runtime_array_out_of_bounds_write t ui line col = .ok t2 →
      t2.array[j]? = (luaH_titan_normalize_table t).array[j]?) ∧
    guardedWrite ⟨[], []⟩ 0 v0 0 0 = .ok ⟨[some v0], []⟩ ∧
    guardedWrite ⟨[some v0], []⟩ 1 v1 0 0 = .ok ⟨[some v0, some v1], []⟩ ∧
    guardedWrite ⟨[some v0, some v1], []⟩ 2 v2 0 0 =
      .ok ⟨[some v0, some v1, some v2, none], []⟩ ∧
    guardedWrite ⟨[some v0, some v1, some v2, none], []⟩ 3 v3 0 0 =
      .ok ⟨[some v0, some v1, some v2, some v3], []⟩ ∧
    guardedWrite ⟨[some v0, some v1, some v2, some v3], []⟩ 4 v4 0 0 =
      .ok ⟨[some v0, some v1, some v2, some v3, some v4, none, none, none],
        []⟩ ∧
    guardedWrite
        ⟨[some v0, some v1, some v2, some v3, some v4, none, none, none], []⟩
        5 v5 0 0 =
      .ok ⟨[some v0, some v1, some v2, some v3, some v4, some v5, none, none],
        []⟩ := by
  refine ⟨?_, ?_, ?_, ?_, rfl, rfl, rfl, rfl, rfl, rfl⟩
  · intro he h0
    have h1 := write_ok_of_eq line col he
    rw [if_pos h0] at h1
    exact h1
  · intro he h0
    have h1 := write_ok_of_eq line col he
    rw [if_neg h0] at h1
    exact h1
  · unfold write_request
    by_cases he : ui = (luaH_titan_normalize_table t).sizearray <;>
      simp [he]
  · intro j t2 he hov hj hw
    have h0 : (luaH_titan_normalize_table t).sizearray ≠ 0 := by omega
    have h1 := write_ok_of_eq line col he
    rw [if_neg h0, Nat.mod_eq_of_lt hov] at h1
    rw [h1] at hw
    injection hw with hw
    rw [← hw]
    exact resize_get_lt hj (by omega)

/-- Witness for C1 (amended): capacity 0 grows to 1, capacity 2 grows to
4, and the growth from capacity 1 to 2 preserves the stored slot. -/
theorem claim_C1_witness :
    ((0 : Nat) = (luaH_titan_normalize_table
        (⟨[], []⟩ : Table)).sizearray ∧
      (luaH_titan_normalize_table (⟨[], []⟩ : Table)).sizearray = 0 ∧
      titan_runtime_array_out_of_bounds_write ⟨[], []⟩ 0 0 0 =
        .ok (luaH_resizearray (luaH_titan_normalize_table ⟨[], []⟩) 1)) ∧
    ((2 : Nat) = (luaH_titan_normalize_table
        (⟨[none, none], []⟩ : Table)).sizearray ∧
      (luaH_titan_normalize_table
        (⟨[none, none], []⟩ : Table)).sizearray ≠ 0 ∧
      titan_runtime_array_out_of_bounds_write ⟨[none, none], []⟩ 2 0 0 =
        .ok (luaH_resizearray (luaH_titan_normalize_table ⟨[none, none], []⟩)
          ((2 * (luaH_titan_normalize_table
            (⟨[none, none], []⟩ : Table)).sizearray) % UINT_MOD))) ∧
    ((1 : Nat) = (luaH_titan_normalize_table
        (⟨[some ⟨LUA_TNUMINT, 6⟩], []⟩ : Table)).sizearray ∧
      2 * (luaH_titan_normalize_table
        (⟨[some ⟨LUA_TNUMINT, 6⟩], []⟩ : Table)).sizearray < UINT_MOD ∧
      0 < (luaH_titan_normalize_table
        (⟨[some ⟨LUA_TNUMINT, 6⟩], []⟩ : Table)).sizearray ∧
      titan_runtime_array_out_of_bounds_write
          ⟨[some ⟨LUA_TNUMINT, 6⟩], []⟩ 1 0 0 =
        .ok ⟨[some ⟨LUA_TNUMINT, 6⟩, none], []⟩ ∧
      (⟨[some ⟨LUA_TNUMINT, 6⟩, none], []⟩ : Table).array[0]? =
        (luaH_titan_normalize_table
          (⟨[some ⟨LUA_TNUMINT, 6⟩], []⟩ : Table)).array[0]?) :=
  ⟨⟨rfl, rfl,
    (claim_C1_growth_policy ⟨[], []⟩ 0 0 0 ⟨0, 0⟩ ⟨0, 0⟩ ⟨0, 0⟩ ⟨0, 0⟩
      ⟨0, 0⟩ ⟨0, 0⟩).1 rfl rfl⟩,
   ⟨rfl, by decide,
    (claim_C1_growth_policy ⟨[none, none], []⟩ 2 0 0 ⟨0, 0⟩ ⟨0, 0⟩ ⟨0, 0⟩
      ⟨0, 0⟩ ⟨0, 0⟩ ⟨0, 0⟩).2.1 rfl (by decide)⟩,
   ⟨rfl, by decide, by decide, rfl,
    (claim_C1_growth_policy ⟨[some ⟨LUA_TNUMINT, 6⟩], []⟩ 1 0 0 ⟨0, 0⟩
      ⟨0, 0⟩ ⟨0, 0⟩ ⟨0, 0⟩ ⟨0, 0⟩ ⟨0, 0⟩).2.2.2.1 0
      ⟨[some ⟨LUA_TNUMINT, 6⟩, none], []⟩ rfl (by decide) (by decide) rfl⟩⟩

/-- Counterexample to C3 as stated: at capacity 2^31 the write-bounds
check at the index equal to the size succeeds, yet the growth does not
preserve the stored slot 0 — the requested capacity wrapped to 0 and
the array region is emptied. -/
theorem claim_C3_counterexample :
    titan_runtime_array_out_of_bounds_write
        ⟨some ⟨LUA_TNUMINT, 7⟩ :: List.replicate (2 ^ 31 - 1) none, []⟩
        (2 ^ 31) 0 0 =
      .ok ⟨[], []⟩ ∧
    (some ⟨LUA_TNUMINT, 7⟩ ::
        List.replicate (2 ^ 31 - 1) (none : Option TValue))[0]? =
      some (some ⟨LUA_TNUMINT, 7⟩) ∧
    (⟨[], []⟩ : Table).array[0]? = none :=
  ⟨write_at_pow31 (by rw [List.length_cons, List.length_replicate]; norm_num),
   by rw [List.getElem?_cons_zero], rfl⟩

/-- C3 (amended): for every write-bounds check at index equal to the
post-normalization size whose doubled capacity does not overflow
`unsigned int`, the growth preserves every existing slot and the
committed-slot count, the single slot at the written index becomes the
only new committed slot once generated code stores the value, and the
committed-slot count — the logical content size — advances by exactly
one per such write. -/
theorem claim_C3_append_commit (t : Table) (ui : Nat) (line col : Int)
    (v : TValue)
    (he : ui = (luaH_titan_normalize_table t).sizearray)
    (hov : 2 * (luaH_titan_normalize_table t).sizearray < UINT_MOD) :
    ∃ t2, titan_runtime_array_out_of_bounds_write t ui line col = .ok t2 ∧
      t2.sizearray =
        (if (luaH_titan_normalize_table t).sizearray = 0 then 1
          else 2 * (luaH_titan_normalize_table t).sizearray) ∧
      (∀ j, j < (luaH_titan_normalize_table t).sizearray →
        t2.array[j]? = (luaH_titan_normalize_table t).array[j]?) ∧
      t2.committed = (luaH_titan_normalize_table t).committed ∧
      t2.array[ui]? = some none ∧
      (storeSlot t2 ui v).array[ui]? = some (some v) ∧
      (∀ j, j < (luaH_titan_normalize_table t).sizearray →
        (storeSlot t2 ui v).array[j]? =
          (luaH_titan_normalize_table t).array[j]?) ∧
      (storeSlot t2 ui v).committed =
        (luaH_titan_normalize_table t).committed + 1 := by
  set S := (luaH_titan_normalize_table t).sizearray with hSdef
  have hcap : (if S = 0 then 1 else (2 * S) % UINT_MOD) =
      (if S = 0 then 1 else 2 * S) := by
    by_cases h0 : S = 0
    · rw [if_pos h0, if_pos h0]
    · rw [if_neg h0, if_neg h0, Nat.mod_eq_of_lt hov]
  have hSlt : S < (if S = 0 then 1 else 2 * S) := by
    by_cases h0 : S = 0
    · simp [h0]
    · simp [h0]
      omega
  have hSle : S ≤ (if S = 0 then 1 else 2 * S) := Nat.le_of_lt hSlt
  have hw := write_ok_of_eq line col he
  rw [hcap] at hw
  refine ⟨luaH_resizearray (luaH_titan_normalize_table t)
    (if S = 0 then 1 else 2 * S), hw, sizearray_resize _ _, ?_, ?_, ?_, ?_,
    ?_, ?_⟩
  · intro j hj
    exact resize_get_lt hj (Nat.lt_of_lt_of_le hj hSle)
  · exact committed_resize_grow hSle
  · rw [he]
    exact resize_get_new (Nat.le_refl S) hSlt
  · refine store_get_self v ?_
    rw [sizearray_resize, he]
    exact hSlt
  · intro j hj
    rw [store_get_ne v (by omega)]
    exact resize_get_lt hj (Nat.lt_of_lt_of_le hj hSle)
  · rw [committed_store_hole v ?_, committed_resize_grow hSle]
    rw [he]
    exact resize_get_new (Nat.le_refl S) hSlt

/-- Witness for C3 (amended) at a one-slot table: the append at index 1
grows the capacity to 2, keeps slot 0, and raises the committed count
from 1 to 2 after the store. -/
theorem claim_C3_witness :
    ((1 : Nat) = (luaH_titan_normalize_table
        (⟨[some ⟨LUA_TNUMINT, 3⟩], []⟩ : Table)).sizearray) ∧
    (2 * (luaH_titan_normalize_table
        (⟨[some ⟨LUA_TNUMINT, 3⟩], []⟩ : Table)).sizearray < UINT_MOD) ∧
    (∃ t2, titan_runtime_array_out_of_bounds_write
          ⟨[some ⟨LUA_TNUMINT, 3⟩], []⟩ 1 0 0 = .ok t2 ∧
        t2.sizearray =
          (if (luaH_titan_normalize_table
            (⟨[some ⟨LUA_TNUMINT, 3⟩], []⟩ : Table)).sizearray = 0 then 1
            else 2 * (luaH_titan_normalize_table
              (⟨[some ⟨LUA_TNUMINT, 3⟩], []⟩ : Table)).sizearray) ∧
        (∀ j, j < (luaH_titan_normalize_table
            (⟨[some ⟨LUA_TNUMINT, 3⟩], []⟩ : Table)).sizearray →
          t2.array[j]? = (luaH_titan_normalize_table
            (⟨[some ⟨LUA_TNUMINT, 3⟩], []⟩ : Table)).array[j]?) ∧
        t2.committed = (luaH_titan_normalize_table
          (⟨[some ⟨LUA_TNUMINT, 3⟩], []⟩ : Table)).committed ∧
        t2.array[(1 : Nat)]? = some none ∧
        (storeSlot t2 1 ⟨LUA_TNUMFLT, 9⟩).array[(1 : Nat)]? =
          some (some ⟨LUA_TNUMFLT, 9⟩) ∧
        (∀ j, j < (luaH_titan_normalize_table
            (⟨[some ⟨LUA_TNUMINT, 3⟩], []⟩ : Table)).sizearray →
          (storeSlot t2 1 ⟨LUA_TNUMFLT, 9⟩).array[j]? =
            (luaH_titan_normalize_table
              (⟨[some ⟨LUA_TNUMINT, 3⟩], []⟩ : Table)).array[j]?) ∧
        (storeSlot t2 1 ⟨LUA_TNUMFLT, 9⟩).committed =
          (luaH_titan_normalize_table
            (⟨[some ⟨LUA_TNUMINT, 3⟩], []⟩ : Table)).committed + 1) :=
  ⟨rfl, by decide,
   claim_C3_append_commit ⟨[some ⟨LUA_TNUMINT, 3⟩], []⟩ 1 0 0
     ⟨LUA_TNUMFLT, 9⟩ rfl (by decide)⟩

/-- Counterexample to C4 as stated: on a table of size 3 and capacity
exactly 3, the write-bounds check at index 3 succeeds but grows the
capacity to 6 = 2 × 3, not to 4. -/
theorem claim_C4_counterexample :
    titan_runtime_array_out_of_bounds_write
        ⟨[some ⟨LUA_TNUMINT, 1⟩, some ⟨LUA_TNUMINT, 2⟩,
          some ⟨LUA_TNUMINT, 3⟩], []⟩ 3 1 2 =
      .ok ⟨[some ⟨LUA_TNUMINT, 1⟩, some ⟨LUA_TNUMINT, 2⟩,
        some ⟨LUA_TNUMINT, 3⟩, none, none, none], []⟩ ∧
    (⟨[some ⟨LUA_TNUMINT, 1⟩, some ⟨LUA_TNUMINT, 2⟩,
      some ⟨LUA_TNUMINT, 3⟩, none, none, none], []⟩ : Table).sizearray ≠ 4 :=
  ⟨rfl, by decide⟩

/-- C4 (amended): in the end-to-end scenario of a table whose array
region has post-normalization size 3 (hence physical capacity exactly
3), a write-bounds check at index 3 succeeds and grows the capacity to
6 = 2 × 3, triggered by the append condition i == size independently of
capacity headroom; the capacity is pre-emptively resized — index 3 is
still a hole right after the check — before the float value is
committed there by generated code. -/
theorem claim_C4_scenario (t : Table) (line col : Int) (p : Nat)
    (h3 : (luaH_titan_normalize_table t).sizearray = 3) :
    titan_runtime_array_out_of_bounds_write t 3 line col =
      .ok (luaH_resizearray (luaH_titan_normalize_table t) 6) ∧
    (luaH_resizearray (luaH_titan_normalize_table t) 6).sizearray = 6 ∧
    (∀ j, j < 3 →
      (luaH_resizearray (luaH_titan_normalize_table t) 6).array[j]? =
        (luaH_titan_normalize_table t).array[j]?) ∧
    (luaH_resizearray (luaH_titan_normalize_table t) 6).array[(3 : Nat)]? =
      some none ∧
    (storeSlot (luaH_resizearray (luaH_titan_normalize_table t) 6) 3
        ⟨LUA_TNUMFLT, p⟩).array[(3 : Nat)]? =
      some (some ⟨LUA_TNUMFLT, p⟩) := by
  refine ⟨?_, sizearray_resize _ _, ?_, ?_, ?_⟩
  · have h1 := write_ok_of_eq line col h3.symm
    rw [h3] at h1
    norm_num [UINT_MOD] at h1
    exact h1
  · intro j hj
    exact resize_get_lt (by omega) (by omega)
  · exact resize_get_new (by omega) (by omega)
  · refine store_get_self _ ?_
    rw [sizearray_resize]
    omega

/-- Witness for C4 (amended) at a concrete table of three committed
integer slots. -/
theorem claim_C4_witness :
    ((luaH_titan_normalize_table
      (⟨[some ⟨LUA_TNUMINT, 1⟩, some ⟨LUA_TNUMINT, 2⟩,
        some ⟨LUA_TNUMINT, 3⟩], []⟩ : Table)).sizearray = 3) ∧
    titan_runtime_array_out_of_bounds_write
        ⟨[some ⟨LUA_TNUMINT, 1⟩, some ⟨LUA_TNUMINT, 2⟩,
          some ⟨LUA_TNUMINT, 3⟩], []⟩ 3 1 2 =
      .ok (luaH_resizearray (luaH_titan_normalize_table
        ⟨[some ⟨LUA_TNUMINT, 1⟩, some ⟨LUA_TNUMINT, 2⟩,
          some ⟨LUA_TNUMINT, 3⟩], []⟩) 6) ∧
    (storeSlot (luaH_resizearray (luaH_titan_normalize_table
        ⟨[some ⟨LUA_TNUMINT, 1⟩, some ⟨LUA_TNUMINT, 2⟩,
          some ⟨LUA_TNUMINT, 3⟩], []⟩) 6) 3
        ⟨LUA_TNUMFLT, 5⟩).array[(3 : Nat)]? =
      some (some ⟨LUA_TNUMFLT, 5⟩) :=
  ⟨rfl,
   (claim_C4_scenario
     ⟨[some ⟨LUA_TNUMINT, 1⟩, some ⟨LUA_TNUMINT, 2⟩,
       some ⟨LUA_TNUMINT, 3⟩], []⟩ 1 2 5 rfl).1,
   (claim_C4_scenario
     ⟨[some ⟨LUA_TNUMINT, 1⟩, some ⟨LUA_TNUMINT, 2⟩,
       some ⟨LUA_TNUMINT, 3⟩], []⟩ 1 2 5 rfl).2.2.2.2⟩

end Titan
